import Mathlib

/-!
Shallow embedding of the ScienceQA retrieval engine
(`app/rag_engine.py`, `app/main.py`, `app/quiz_engine.py`,
`scripts/1_clean_data.py`, `scripts/2_build_db.py`) and proofs about it.

Conventions of the embedding:
* Python values that may be missing (`item.get(...)` returning `None`,
  pandas `NaN`) are `Option String`.
* A raised Python exception is an `Except`/`Option String` error value.
* The Chroma collection is a list of stored entries in insertion order.
* The embedding model and the k-NN search are deterministic black boxes
  (spec §2, §4.1): the query pipeline is parametrised by the ranked
  result list they produce.
-/

namespace ScholarLens

/-- Record of the corpus file `data/cleaned_exam.json` as consumed by
`build_knowledge_base` (`scripts/2_build_db.py`) and by the quiz engine.
Fields a record may lack are `Option`; `choices`, `answer` and `image`
are carried verbatim by the scripts and never read, so they are elided. -/
structure Item where
  id       : Option String
  prompt   : Option String
  lecture  : Option String
  solution : Option String
  subject  : Option String
  topic    : Option String
deriving DecidableEq, Repr

/-- Metadata stored with each indexed document
(`scripts/2_build_db.py` lines 42-46): three string fields, never null. -/
structure Metadata where
  subject  : String
  topic    : String
  solution : String
deriving DecidableEq, Repr

/-- One entry of the Chroma collection: parallel `ids` / `documents` /
`metadatas` values of `collection.add`, zipped. -/
structure Entry where
  id       : String
  document : String
  metadata : Metadata
deriving DecidableEq, Repr

/-- Python `x or default` on an optional string: `None` and the empty
string are falsy, any other string is returned unchanged. -/
def pyOr (x : Option String) (d : String) : String :=
  match x with
  | none => d
  | some s => if s = "" then d else s

/-- The combined text of one record
(`scripts/2_build_db.py` line 38):
`f"Question: {item.get('prompt', '')} Context: {item.get('lecture', '')}"`. -/
def combinedText (item : Item) : String :=
  "Question: " ++ item.prompt.getD "" ++ " Context: " ++ item.lecture.getD ""

/-- The metadata dict built for one record
(`scripts/2_build_db.py` lines 42-46): `str(item.get('subject') or "General")`
etc.; `str` is the identity on the strings modelled here. -/
def itemMetadata (item : Item) : Metadata :=
  ⟨pyOr item.subject "General", pyOr item.topic "General", pyOr item.solution ""⟩

/-- One iteration of the ingestion loop (`scripts/2_build_db.py` lines 37-46):
`item['id']` raises `KeyError` when the key is absent, otherwise the
id/document/metadata triple is appended. -/
def processItem (item : Item) : Except String Entry :=
  match item.id with
  | none => .error "KeyError: id"
  | some i => .ok ⟨i, combinedText item, itemMetadata item⟩

/-- The whole ingestion loop (`scripts/2_build_db.py` lines 37-46): the
first `KeyError` aborts `build_knowledge_base` before any batch is added. -/
def processItems : List Item → Except String (List Entry)
  | [] => .ok []
  | item :: rest =>
    match processItem item with
    | .error msg => .error msg
    | .ok e =>
      match processItems rest with
      | .error msg => .error msg
      | .ok es => .ok (e :: es)

/-- Helper for `chunks`, structurally recursive on a fuel argument so
the kernel can evaluate it: takes the slice `l[0:bs]` and recurses on
`l[bs:]`. With `l.length ≤ fuel` and `0 < bs` the fuel never runs out
(`chunksAux_join` below recovers the slicing identity). -/
def chunksAux (bs : Nat) : Nat → List Entry → List (List Entry)
  | _, [] => []
  | 0, _ :: _ => []
  | fuel + 1, a :: rest =>
    (a :: rest).take bs :: chunksAux bs fuel ((a :: rest).drop bs)

/-- The batch slices `ids[i:i+bs]` for `i in range(0, len(ids), bs)`
(`scripts/2_build_db.py` lines 49-56). For `bs = 0` Python's `range`
raises; the code only uses `bs = 500`. -/
def chunks (bs : Nat) (l : List Entry) : List (List Entry) :=
  chunksAux bs l.length l

/-- The sequential `collection.add` loop (`scripts/2_build_db.py` lines
52-64). `addFails b` says whether the `collection.add` call for batch
number `b` raises; a raised exception propagates out of
`build_knowledge_base` (there is no try/except around the loop), leaving
the collection holding exactly the previously added batches. Returns
(raised exception if any, final collection contents). -/
def addBatches (addFails : Nat → Bool) :
    List (List Entry) → Nat → List Entry → Option String × List Entry
  | [], _, acc => (none, acc)
  | b :: rest, i, acc =>
    if b = [] then addBatches addFails rest (i + 1) acc
    else if addFails i then (some "add failed", acc)
    else addBatches addFails rest (i + 1) (acc ++ b)

/-- `build_knowledge_base` (`scripts/2_build_db.py` lines 9-66) on an
already-loaded corpus `data`. Lines 21-29 delete any existing collection
(exception ignored) and create a fresh one, so the prior collection
contents `_prior` are discarded unconditionally. The item loop runs
before any `add`; a `KeyError` there leaves the fresh collection empty.
Result: (raised exception if any, final collection contents). -/
def build_knowledge_base (addFails : Nat → Bool) (_prior : List Entry)
    (data : List Item) : Option String × List Entry :=
  match processItems data with
  | .error msg => (some msg, [])
  | .ok entries => addBatches addFails (chunks 500 entries) 0 []

/-- Add oracle under which no `collection.add` call raises. -/
def noFail : Nat → Bool := fun _ => false

/-- `clean_data` (`scripts/1_clean_data.py`), restricted to the step the
claims depend on: `df_clean.dropna(subset=['prompt', 'lecture'])` drops
exactly the rows whose `prompt` or `lecture` is missing (`NaN`/`None`);
an empty string is not `NaN` and is kept. Column selection and the
`choices` synthesis touch only fields elided from `Item`. -/
def clean_data (rows : List Item) : List Item :=
  rows.filter (fun r => r.prompt.isSome && r.lecture.isSome)

/-- The value a Python function returns to `retrieve_context`: either a
bare string or a 2-tuple of strings, the two shapes `search_knowledge`
can produce. -/
inductive PyReturn where
  | pystr (s : String)
  | pypair (a b : String)
deriving DecidableEq, Repr

/-- `search_knowledge` (`app/rag_engine.py` lines 6-23) as a function of
the ranked query result: the parallel lists `results['documents'][0]`
and `results['metadatas'][0]` (nearest first), zipped. If the document
list is empty the bare string `"No relevant textbook info found."` is
returned; otherwise the pair of the space-joined documents and
`results['metadatas'][0][0].get('topic', 'General')` — ingestion always
stores a `topic` key (`itemMetadata`), so the `get` yields it. -/
def search_knowledge (results : List (String × Metadata)) : PyReturn :=
  match results with
  | [] => .pystr "No relevant textbook info found."
  | (_, md) :: _ =>
    .pypair (String.intercalate " " (results.map Prod.fst)) md.topic

/-- Python tuple unpacking `context, topic = v`: a 2-tuple unpacks; a
string unpacks only when it has exactly two characters, else
`ValueError` is raised. -/
def unpack2 : PyReturn → Except String (String × String)
  | .pypair a b => .ok (a, b)
  | .pystr s =>
    match s.data with
    | [c₁, c₂] => .ok (String.mk [c₁], String.mk [c₂])
    | _ => .error "ValueError: cannot unpack"

/-- Response model of `/retrieve` (`app/models.py`): `confidence_score`
is the hardcoded constant `0.95` (`app/main.py` line 17), modelled as a
rational. -/
structure ContextResponse where
  answer_context   : String
  source_topic     : String
  confidence_score : ℚ
deriving DecidableEq, Repr

/-- `retrieve_context` (`app/main.py` lines 12-21) as a function of the
ranked query result: `context, topic = search_knowledge(...)` unpacks
the returned value, builds the response, and any exception is caught and
re-raised as `HTTPException(status_code=500)` (the error case, carrying
the status code). -/
def retrieve_context (results : List (String × Metadata)) :
    Except Nat ContextResponse :=
  match unpack2 (search_knowledge results) with
  | .ok (c, t) => .ok ⟨c, t, 95 / 100⟩
  | .error _ => .error 500

/-- The full query pipeline (spec §4.4): embed the question with the
deterministic black-box model, run the k-NN query against a fixed index
state — both abstracted as the function `knn` from question to ranked
results (`app/rag_engine.py` lines 10-13) — then post-process with
`retrieve_context`. -/
def query_pipeline (knn : String → List (String × Metadata))
    (question : String) : Except Nat ContextResponse :=
  retrieve_context (knn question)

/-- ASCII lowercasing of a character list, mirroring Python's
`.lower()` / `re.IGNORECASE` on the ASCII strings used here. -/
def lowerChars (l : List Char) : List Char :=
  l.map Char.toLower

/-- The pattern occurs literally at the head of the subject (the
subject may continue past the pattern). -/
def litPrefixAt : List Char → List Char → Bool
  | [], _ => true
  | _ :: _, [] => false
  | p :: ps, c :: cs => p = c && litPrefixAt ps cs

/-- The pattern occurs literally at some position of the subject; the
empty pattern occurs in every subject. -/
def litSearch (pat : List Char) : List Char → Bool
  | [] => litPrefixAt pat []
  | c :: cs => litPrefixAt pat (c :: cs) || litSearch pat cs

/-- Case-insensitive literal-substring test. This is the semantics the
C10 claim's wording ("case-insensitive substring match") attributes to
the topic filter; the source's `str.contains` actually performs
regular-expression search (see `generate_quiz`), and the C10
counterexample separates the two readings. -/
def litSubstr (s pat : String) : Bool :=
  litSearch (lowerChars pat.data) (lowerChars s.data)

/-- The C10 claim's reading of the row filter: case-insensitive literal
substring match on the row's `topic`, false for a missing (`NaN`)
topic. Used only to state the counterexample's hypothesis in the
claim's own terms; the source's filter is `rowContains`. -/
def claimTopicSubstr (topic : String) (r : Item) : Bool :=
  match r.topic with
  | none => false
  | some t => litSubstr t topic

/-- The per-row predicate of
`df['topic'].str.contains(topic, case=False, na=False)`
(`app/quiz_engine.py` line 21), given the matcher of the compiled
pattern: `na=False` maps a missing (`NaN`) topic to `False`, any other
topic is tested with the matcher. -/
def rowContains (matcher : String → Bool) (r : Item) : Bool :=
  match r.topic with
  | none => false
  | some t => matcher t

/-- Matcher of a pattern made of literal characters and the
metacharacter `.` at one fixed position of the subject: `.` matches any
character, a literal matches itself, and the pattern may end before the
subject does. -/
def dotMatchesHere : List Char → List Char → Bool
  | [], _ => true
  | _ :: _, [] => false
  | p :: ps, c :: cs => (p = '.' || p = c) && dotMatchesHere ps cs

/-- `re.search` for patterns of literal characters and `.`: the pattern
matches at some position of the subject. -/
def dotSearch (pat : List Char) : List Char → Bool
  | [] => dotMatchesHere pat []
  | c :: cs => dotMatchesHere pat (c :: cs) || dotSearch pat cs

/-- Concrete stand-in for `re.compile(pattern, re.IGNORECASE)` used at
the concrete inputs of the C10 theorems. It agrees with Python `re`
there: the invalid pattern `"("` raises `re.error` ("missing ),
unterminated subpattern" — `none` here), and patterns of literals and
`.` search case-insensitively (both sides lowercased, which coincides
with `re.IGNORECASE` on ASCII). -/
def dotCompile (p : String) : Option (String → Bool) :=
  if p = "(" then none
  else some (fun s => dotSearch (lowerChars p.data) (lowerChars s.data))

/-- `generate_quiz` (`app/quiz_engine.py` lines 14-30). The loaded
dataframe `df` is the record list; `_difficulty` is accepted and never
read, as in the source. Two library calls are abstracted as parameters:
`compileRe` is `re.compile(topic, re.IGNORECASE)` as invoked by
`df['topic'].str.contains(topic, case=False, na=False)` — pandas
defaults to `regex=True`, so the topic is a regular expression, an
invalid pattern raises `re.error` (the error result; the `df.empty`
early return precedes it, as in the source), and the compiled matcher
drives the per-row test — and `sample` is `df.sample(n=k)`, the uniform
random draw of `k` rows, constrained in the theorems only by its length
contract. -/
def generate_quiz (compileRe : String → Option (String → Bool))
    (sample : List Item → Nat → List Item) (df : List Item)
    (topic : String) (_difficulty : String) (num_questions : Nat) :
    Except String (List Item) :=
  if df.isEmpty then .ok []
  else
    match compileRe topic with
    | none => .error "re.error"
    | some matcher =>
      let topic_df := df.filter (rowContains matcher)
      let topic_df := if topic_df.isEmpty then df else topic_df
      let sample_size := min num_questions topic_df.length
      .ok (sample topic_df sample_size)

/-- Corpus record whose `lecture` is present but equal to the empty
string (concrete test input). -/
def emptyLectureItem : Item := ⟨some "1", some "P1", some "", none, none, none⟩

/-- Corpus record with no `id` key (concrete test input). -/
def missingIdItem : Item := ⟨none, some "P", some "L", none, none, none⟩

/-- Well-formed corpus record (concrete test input). -/
def goodItem : Item := ⟨some "2", some "Q", some "M", none, none, none⟩

/-- Corpus record with every optional metadata field absent
(concrete test input). -/
def bareItem : Item := ⟨some "9", none, none, none, none, none⟩

/-- Corpus of 501 records with distinct ids: one more than the batch
size 500, so ingestion needs two `collection.add` calls. -/
def bigData : List Item :=
  (List.range 501).map fun n => ⟨some (toString n), some "p", some "l", none, none, none⟩

/-- The 501 index entries the ingestion loop derives from `bigData`. -/
def bigEntries : List Entry :=
  (List.range 501).map fun n =>
    ⟨toString n, "Question: p Context: l", ⟨"General", "General", ""⟩⟩

/-- Sampling function that draws the first `n` rows; it satisfies the
length contract of `pandas.DataFrame.sample` used in the theorems. -/
def takeSample (l : List Item) (n : Nat) : List Item := l.take n

/-- Quiz corpus record with topic "abc" (concrete test input). -/
def abcItem : Item := ⟨some "A", some "pa", some "la", none, none, some "abc"⟩

/-- Quiz corpus record with topic "xyz" (concrete test input). -/
def xyzItem : Item := ⟨some "X", some "px", some "lx", none, none, some "xyz"⟩

/-! ### Helper lemmas -/

/-- With enough fuel and a positive batch size, the concatenation of the
batch slices is the original list. -/
lemma chunksAux_join (bs : Nat) (hbs : 0 < bs) :
    ∀ (fuel : Nat) (l : List Entry), l.length ≤ fuel →
      (chunksAux bs fuel l).flatten = l := by
  intro fuel
  induction fuel with
  | zero =>
    intro l hl
    match l with
    | [] => rfl
    | a :: rest => simp at hl
  | succ n ih =>
    intro l hl
    match l with
    | [] => rfl
    | a :: rest =>
      simp only [chunksAux, List.flatten_cons]
      rw [ih ((a :: rest).drop bs)
        (by simp only [List.length_drop, List.length_cons] at hl ⊢; omega)]
      exact List.take_append_drop bs (a :: rest)

/-- The concatenation of the 500-sized batches is the original list. -/
lemma chunks_join (l : List Entry) : (chunks 500 l).flatten = l :=
  chunksAux_join 500 (by norm_num) l.length l le_rfl

/-- Every batch slice is non-empty and no longer than the batch size. -/
lemma chunksAux_mem (bs : Nat) (hbs : 0 < bs) :
    ∀ (fuel : Nat) (l : List Entry) (c : List Entry),
      c ∈ chunksAux bs fuel l → c.length ≤ bs ∧ c ≠ [] := by
  intro fuel
  induction fuel with
  | zero =>
    intro l c hc
    match l with
    | [] => simp [chunksAux] at hc
    | a :: rest => simp [chunksAux] at hc
  | succ n ih =>
    intro l c hc
    match l with
    | [] => simp [chunksAux] at hc
    | a :: rest =>
      simp only [chunksAux, List.mem_cons] at hc
      rcases hc with rfl | hc
      · refine ⟨List.length_take_le bs (a :: rest), ?_⟩
        match bs, hbs with
        | b + 1, _ => simp [List.take_cons]
      · exact ih _ _ hc

/-- Every 500-sized batch is non-empty and holds at most 500 entries. -/
lemma chunks_mem (l : List Entry) (c : List Entry) (hc : c ∈ chunks 500 l) :
    c.length ≤ 500 ∧ c ≠ [] :=
  chunksAux_mem 500 (by norm_num) l.length l c hc

/-- When no `collection.add` call raises, the loop appends every batch
in order. -/
lemma addBatches_noFail (bs : List (List Entry)) :
    ∀ (i : Nat) (acc : List Entry),
      addBatches noFail bs i acc = (none, acc ++ bs.flatten) := by
  induction bs with
  | nil => intro i acc; simp [addBatches]
  | cons b rest ih =>
    intro i acc
    by_cases hb : b = []
    · subst hb; simp [addBatches, ih]
    · simp [addBatches, hb, noFail, ih, List.append_assoc]

/-- Every entry the add loop leaves in the collection was already in the
accumulator or came from one of the batches. -/
lemma addBatches_subset (addFails : Nat → Bool) :
    ∀ (bs : List (List Entry)) (i : Nat) (acc : List Entry) (e : Entry),
      e ∈ (addBatches addFails bs i acc).2 → e ∈ acc ∨ e ∈ bs.flatten := by
  intro bs
  induction bs with
  | nil => intro i acc e he; simp [addBatches] at he; exact Or.inl he
  | cons b rest ih =>
    intro i acc e he
    simp only [addBatches] at he
    by_cases hb : b = []
    · rw [if_pos hb] at he
      rcases ih _ _ _ he with h | h
      · exact Or.inl h
      · exact Or.inr (by simp [hb, h])
    · rw [if_neg hb] at he
      by_cases hf : addFails i
      · rw [if_pos hf] at he
        exact Or.inl he
      · rw [if_neg hf] at he
        rcases ih _ _ _ he with h | h
        · rcases List.mem_append.mp h with h' | h'
          · exact Or.inl h'
          · exact Or.inr (by simp [h'])
        · exact Or.inr (by simp [h])

/-- If every record has an id, the ingestion loop succeeds and produces
one entry per record, ids in order. -/
lemma processItems_ids (data : List Item)
    (h : ∀ item ∈ data, item.id.isSome) :
    ∃ es, processItems data = .ok es ∧
      es.map Entry.id = data.map (fun item => item.id.getD "") := by
  induction data with
  | nil => exact ⟨[], rfl, rfl⟩
  | cons item rest ih =>
    obtain ⟨i, hi⟩ := Option.isSome_iff_exists.mp (h item (by simp))
    obtain ⟨es, hes, hmap⟩ := ih (fun it hit => h it (by simp [hit]))
    refine ⟨⟨i, combinedText item, itemMetadata item⟩ :: es, ?_, ?_⟩
    · simp [processItems, processItem, hi, hes]
    · simp [hmap, hi]

/-- Every entry produced by the ingestion loop comes from some input
record. -/
lemma processItems_mem :
    ∀ (data : List Item) (es : List Entry),
      processItems data = .ok es →
      ∀ e ∈ es, ∃ item ∈ data, processItem item = .ok e := by
  intro data
  induction data with
  | nil =>
    intro es h e he
    simp [processItems] at h
    subst h
    simp at he
  | cons item rest ih =>
    intro es h e he
    simp only [processItems] at h
    cases hpi : processItem item with
    | error msg => rw [hpi] at h; cases h
    | ok e' =>
      rw [hpi] at h
      cases hr : processItems rest with
      | error msg => rw [hr] at h; cases h
      | ok es' =>
        rw [hr] at h
        cases h
        rcases List.mem_cons.mp he with rfl | he'
        · exact ⟨item, by simp, hpi⟩
        · obtain ⟨it, hit, hp⟩ := ih es' hr e he'
          exact ⟨it, by simp [hit], hp⟩

/-- A corpus containing a record without an id makes the ingestion loop
raise `KeyError`. -/
lemma processItems_missing_id :
    ∀ (data : List Item), (∃ item ∈ data, item.id = none) →
      processItems data = .error "KeyError: id" := by
  intro data
  induction data with
  | nil => rintro ⟨item, hmem, _⟩; simp at hmem
  | cons item rest ih =>
    rintro ⟨it, hmem, hid⟩
    rcases List.mem_cons.mp hmem with rfl | hmem'
    · simp [processItems, processItem, hid]
    · cases hpi : processItem item with
      | error msg =>
        simp only [processItems, hpi]
        simp only [processItem] at hpi
        cases hii : item.id with
        | none => rw [hii] at hpi; cases hpi; rfl
        | some j => rw [hii] at hpi; cases hpi
      | ok e => simp [processItems, hpi, ih ⟨it, hmem', hid⟩]

/-- If the `collection.add` call of batch `k` is the first to raise (and
no batch is empty), the loop stops there: the raised exception
propagates and the collection holds exactly the batches before `k`. -/
lemma addBatches_first_fail (addFails : Nat → Bool) :
    ∀ (bs : List (List Entry)) (i k : Nat) (acc : List Entry),
      k < bs.length → (∀ j < k, addFails (i + j) = false) →
      addFails (i + k) = true → (∀ b ∈ bs, b ≠ []) →
      addBatches addFails bs i acc
        = (some "add failed", acc ++ (bs.take k).flatten) := by
  intro bs
  induction bs with
  | nil => intro i k acc hk _ _ _; simp at hk
  | cons b rest ih =>
    intro i k acc hk hbefore hfail hne
    have hb : b ≠ [] := hne b (by simp)
    match k with
    | 0 =>
      simp only [Nat.add_zero] at hfail
      simp [addBatches, hb, hfail]
    | k' + 1 =>
      have h0 : addFails i = false := by
        have := hbefore 0 (Nat.succ_pos k')
        simpa using this
      simp only [addBatches, if_neg hb, h0, Bool.false_eq_true, if_false]
      rw [ih (i + 1) k' (acc ++ b)
        (by simpa using Nat.lt_of_succ_lt_succ (by simpa using hk))
        (fun j hj => by
          have := hbefore (j + 1) (by omega)
          simpa [Nat.add_assoc, Nat.add_comm 1 j] using this)
        (by
          have := hfail
          simpa [Nat.add_assoc, Nat.add_comm 1 k'] using this)
        (fun b' hb' => hne b' (by simp [hb']))]
      simp [List.append_assoc]

/-! ### Claims -/

/-- C1: the claim says a query whose index search returns zero documents
yields the sentinel Retrieval Response as a normal non-error outcome. In
the code, `search_knowledge` returns the bare 32-character string
`"No relevant textbook info found."` instead of a `(context, topic)`
pair; the unpacking `context, topic = search_knowledge(...)` in
`retrieve_context` raises `ValueError`, which the handler converts into
`HTTPException(status_code=500)`. This theorem evaluates the code at the
failing input (the empty result list): the retrieve operation errors. -/
theorem c1_empty_index_raises_500 :
    search_knowledge [] = .pystr "No relevant textbook info found." ∧
    retrieve_context ([] : List (String × Metadata)) = .error 500 :=
  ⟨rfl, rfl⟩

/-- C2 counterexample: the corpus consisting of the single record
`{id: "1", prompt: "P1", lecture: ""}` (empty-string lecture) is
ingested by `build_knowledge_base` without error, and the resulting
index contains the document derived from that record — refuting the
claim that an empty-`lecture` record is never present in the index. -/
theorem c2_counterexample_empty_lecture_indexed :
    build_knowledge_base noFail [] [emptyLectureItem]
      = (none, [⟨"1", "Question: P1 Context: ", ⟨"General", "General", ""⟩⟩]) :=
  rfl

/-- C2 amended: `build_knowledge_base` itself applies no eligibility
filter (an empty-string `lecture` is indexed, see the counterexample);
what does hold is that after the cleaning step (`dropna` on `prompt`
and `lecture`) followed by `build_knowledge_base`, every indexed entry
derives from a corpus record whose `prompt` and `lecture` are both
present (non-null). -/
theorem c2_amended_null_lecture_never_indexed (addFails : Nat → Bool)
    (prior : List Entry) (corpus : List Item) (e : Entry)
    (he : e ∈ (build_knowledge_base addFails prior (clean_data corpus)).2) :
    ∃ item ∈ corpus, item.prompt.isSome ∧ item.lecture.isSome ∧
      item.id = some e.id := by
  unfold build_knowledge_base at he
  cases hpi : processItems (clean_data corpus) with
  | error msg => rw [hpi] at he; simp at he
  | ok es =>
    rw [hpi] at he
    have hsub := addBatches_subset addFails (chunks 500 es) 0 [] e he
    rcases hsub with h | h
    · simp at h
    · rw [chunks_join] at h
      obtain ⟨item, hitem, hok⟩ := processItems_mem _ _ hpi e h
      have hmem := List.mem_filter.mp hitem
      refine ⟨item, hmem.1, ?_, ?_, ?_⟩
      · exact (Bool.and_eq_true _ _ ▸ hmem.2).1
      · exact (Bool.and_eq_true _ _ ▸ hmem.2).2
      · unfold processItem at hok
        cases hid : item.id with
        | none => rw [hid] at hok; cases hok
        | some j =>
          rw [hid] at hok
          cases hok
          rfl

/-- C2 amended, witness: the single-record corpus
`{id: "1", prompt: "p", lecture: "l"}` is cleaned and ingested; its
entry is in the index and the theorem recovers the source record with
both fields present. -/
theorem c2_amended_witness :
    (⟨"1", "Question: p Context: l", ⟨"General", "General", ""⟩⟩ : Entry)
        ∈ (build_knowledge_base noFail []
            (clean_data [⟨some "1", some "p", some "l", none, none, none⟩])).2 ∧
    ∃ item ∈ ([⟨some "1", some "p", some "l", none, none, none⟩] : List Item),
      item.prompt.isSome ∧ item.lecture.isSome ∧
        item.id = some (⟨"1", "Question: p Context: l",
          ⟨"General", "General", ""⟩⟩ : Entry).id :=
  ⟨by decide,
    c2_amended_null_lecture_never_indexed noFail []
      [⟨some "1", some "p", some "l", none, none, none⟩] _ (by decide)⟩

/-- C3 counterexample: on the corpus `[missingIdItem, goodItem]`, where
the first record has no `id`, `build_knowledge_base` raises `KeyError`
(uncaught) and indexes nothing — the malformed record is not dropped and
the run does not complete over the remaining record, refuting the
claim. -/
theorem c3_counterexample_missing_id_fatal :
    build_knowledge_base noFail [] [missingIdItem, goodItem]
      = (some "KeyError: id", []) :=
  rfl

/-- C3 amended: a record missing optional fields (`prompt`, `lecture`,
`subject`, `topic`, `solution`) is indexed with defaults rather than
dropped, but a record missing `id` is fatal: `item['id']` raises
`KeyError` before any batch is written, aborting the whole ingestion run
with an empty index. -/
theorem c3_amended_missing_id_aborts_run (addFails : Nat → Bool)
    (prior : List Entry) (data : List Item)
    (h : ∃ item ∈ data, item.id = none) :
    build_knowledge_base addFails prior data = (some "KeyError: id", []) := by
  unfold build_knowledge_base
  rw [processItems_missing_id data h]

/-- C3 amended, witness: the one-record corpus `[missingIdItem]`
satisfies the hypothesis and the run aborts with `KeyError` and an empty
index. -/
theorem c3_amended_witness :
    (∃ item ∈ ([missingIdItem] : List Item), item.id = none) ∧
    build_knowledge_base noFail [] [missingIdItem]
      = (some "KeyError: id", []) :=
  ⟨⟨missingIdItem, by simp, rfl⟩,
    c3_amended_missing_id_aborts_run noFail [] [missingIdItem]
      ⟨missingIdItem, by simp, rfl⟩⟩

set_option maxRecDepth 100000 in
/-- C4 counterexample: `bigData` has 501 records, so ingestion needs two
`collection.add` calls; when the first call raises, the run aborts with
the exception and an empty collection — the second batch (the one record
with id "500") is never upserted, refuting the claim that ingestion
continues with the remaining batches after a partial batch failure. -/
theorem c4_counterexample_first_batch_failure_aborts :
    bigData.length = 501 ∧
    processItems bigData = .ok bigEntries ∧
    (chunks 500 bigEntries).length = 2 ∧
    build_knowledge_base (fun b => b == 0) [] bigData
      = (some "add failed", []) :=
  ⟨rfl, rfl, rfl, rfl⟩

/-- C4 amended: there is no try/except around the `collection.add` loop,
so the first failing batch aborts `build_knowledge_base`: the exception
propagates and the collection holds exactly the batches added before the
failing one; later batches are never upserted. -/
theorem c4_amended_failed_batch_aborts (addFails : Nat → Bool)
    (prior : List Entry) (data : List Item) (es : List Entry) (k : Nat)
    (hok : processItems data = .ok es)
    (hk : k < (chunks 500 es).length)
    (hbefore : ∀ j < k, addFails j = false)
    (hfail : addFails k = true) :
    build_knowledge_base addFails prior data
      = (some "add failed", ((chunks 500 es).take k).flatten) := by
  unfold build_knowledge_base
  rw [hok]
  have h := addBatches_first_fail addFails (chunks 500 es) 0 k [] hk
    (by simpa using hbefore) (by simpa using hfail)
    (fun b hb => (chunks_mem es b hb).2)
  simpa using h

/-- C4 amended, witness: a one-batch corpus whose only `add` call fails
leaves the collection empty and the run aborted. -/
theorem c4_amended_witness :
    processItems [goodItem]
      = .ok [⟨"2", "Question: Q Context: M", ⟨"General", "General", ""⟩⟩] ∧
    0 < (chunks 500
      [⟨"2", "Question: Q Context: M", ⟨"General", "General", ""⟩⟩]).length ∧
    build_knowledge_base (fun _ => true) [] [goodItem]
      = (some "add failed",
        ((chunks 500 [⟨"2", "Question: Q Context: M",
          ⟨"General", "General", ""⟩⟩]).take 0).flatten) :=
  ⟨rfl, by decide,
    c4_amended_failed_batch_aborts (fun _ => true) [] [goodItem]
      [⟨"2", "Question: Q Context: M", ⟨"General", "General", ""⟩⟩] 0
      rfl (by decide) (fun j hj => absurd hj (by omega)) rfl⟩

/-- C5: when the ranked query result is non-empty, the retrieval
response holds the space-joined concatenation of all returned document
texts in nearest-first order as `answer_context`, and the `topic` of the
single nearest result as `source_topic`, whatever the other results'
topics are. -/
theorem c5_join_context_top1_topic (d : String) (md : Metadata)
    (rest : List (String × Metadata)) :
    retrieve_context ((d, md) :: rest)
      = .ok ⟨String.intercalate " " (d :: rest.map Prod.fst),
          md.topic, 95 / 100⟩ :=
  rfl

/-- C6: every entry stored by the ingestion loop derives from a corpus
record, its document text is `"Question: {prompt} Context: {lecture}"`,
and its metadata fields are the Python `or`-defaults — in particular
`subject`/`topic` become `"General"` and `solution` becomes `""` when
the source field is absent; all three are plain strings, never null. -/
theorem c6_stored_document_and_metadata (data : List Item)
    (es : List Entry) (h : processItems data = .ok es)
    (e : Entry) (he : e ∈ es) :
    ∃ item ∈ data,
      e.document = "Question: " ++ item.prompt.getD "" ++ " Context: "
          ++ item.lecture.getD "" ∧
      e.metadata.subject = pyOr item.subject "General" ∧
      e.metadata.topic = pyOr item.topic "General" ∧
      e.metadata.solution = pyOr item.solution "" ∧
      (item.subject = none → e.metadata.subject = "General") ∧
      (item.topic = none → e.metadata.topic = "General") ∧
      (item.solution = none → e.metadata.solution = "") := by
  obtain ⟨item, hitem, hok⟩ := processItems_mem data es h e he
  unfold processItem at hok
  cases hid : item.id with
  | none => rw [hid] at hok; cases hok
  | some i =>
    rw [hid] at hok
    cases hok
    refine ⟨item, hitem, rfl, rfl, rfl, rfl, ?_, ?_, ?_⟩
    · intro hs; simp [itemMetadata, pyOr, hs]
    · intro hs; simp [itemMetadata, pyOr, hs]
    · intro hs; simp [itemMetadata, pyOr, hs]

/-- C6 witness: the record with id "9" and every optional field absent
is stored with the bare template document and the default metadata. -/
theorem c6_witness :
    processItems [bareItem]
      = .ok [⟨"9", "Question:  Context: ", ⟨"General", "General", ""⟩⟩] ∧
    (⟨"9", "Question:  Context: ", ⟨"General", "General", ""⟩⟩ : Entry)
      ∈ [(⟨"9", "Question:  Context: ", ⟨"General", "General", ""⟩⟩ : Entry)] ∧
    ∃ item ∈ ([bareItem] : List Item),
      (⟨"9", "Question:  Context: ", ⟨"General", "General", ""⟩⟩ : Entry).document
          = "Question: " ++ item.prompt.getD "" ++ " Context: "
            ++ item.lecture.getD "" ∧
      (⟨"9", "Question:  Context: ", ⟨"General", "General", ""⟩⟩ : Entry).metadata.subject
          = pyOr item.subject "General" ∧
      (⟨"9", "Question:  Context: ", ⟨"General", "General", ""⟩⟩ : Entry).metadata.topic
          = pyOr item.topic "General" ∧
      (⟨"9", "Question:  Context: ", ⟨"General", "General", ""⟩⟩ : Entry).metadata.solution
          = pyOr item.solution "" ∧
      (item.subject = none →
        (⟨"9", "Question:  Context: ", ⟨"General", "General", ""⟩⟩ : Entry).metadata.subject = "General") ∧
      (item.topic = none →
        (⟨"9", "Question:  Context: ", ⟨"General", "General", ""⟩⟩ : Entry).metadata.topic = "General") ∧
      (item.solution = none →
        (⟨"9", "Question:  Context: ", ⟨"General", "General", ""⟩⟩ : Entry).metadata.solution = "") :=
  ⟨rfl, by decide,
    c6_stored_document_and_metadata [bareItem]
      [⟨"9", "Question:  Context: ", ⟨"General", "General", ""⟩⟩] rfl
      ⟨"9", "Question:  Context: ", ⟨"General", "General", ""⟩⟩ (by decide)⟩

/-- C7: each `build_knowledge_base` run first deletes and recreates the
collection (rebuild), so a second run on the same corpus reproduces
exactly the first run's index; when the corpus ids are pairwise distinct
(they are unique stable identifiers) the final index holds exactly one
entry per record id — no duplicates accumulate across runs. -/
theorem c7_rebuild_twice_one_doc_per_id (data : List Item)
    (hids : ∀ item ∈ data, item.id.isSome)
    (hnodup : (data.map (fun item => item.id.getD "")).Nodup) :
    build_knowledge_base noFail (build_knowledge_base noFail [] data).2 data
      = build_knowledge_base noFail [] data ∧
    ∀ item ∈ data, ∀ i, item.id = some i →
      ((build_knowledge_base noFail
          (build_knowledge_base noFail [] data).2 data).2.filter
        (fun e => e.id == i)).length = 1 := by
  obtain ⟨es, hes, hmap⟩ := processItems_ids data hids
  have hb : build_knowledge_base noFail [] data = (none, es) := by
    unfold build_knowledge_base
    rw [hes]
    show addBatches noFail (chunks 500 es) 0 [] = (none, es)
    rw [addBatches_noFail, chunks_join]
    simp
  have hb2 : build_knowledge_base noFail
      (build_knowledge_base noFail [] data).2 data = (none, es) := hb
  refine ⟨rfl, ?_⟩
  intro item hmem i hi
  rw [hb2]
  have hcount : (es.filter (fun e => e.id == i)).length
      = (es.map Entry.id).count i := by
    rw [List.count, List.countP_map, List.countP_eq_length_filter]
    rfl
  rw [hcount, hmap]
  refine List.count_eq_one_of_mem hnodup ?_
  have hgi : (fun it : Item => it.id.getD "") item = i := by
    show item.id.getD "" = i
    rw [hi]
    rfl
  exact hgi ▸ List.mem_map_of_mem _ hmem

/-- C7 witness: the one-record corpus `[goodItem]` has distinct ids; the
second rebuild-and-ingest run equals the first and id "2" is stored
exactly once. -/
theorem c7_witness :
    (∀ item ∈ ([goodItem] : List Item), item.id.isSome) ∧
    (([goodItem] : List Item).map (fun item => item.id.getD "")).Nodup ∧
    (build_knowledge_base noFail
        (build_knowledge_base noFail [] [goodItem]).2 [goodItem]
      = build_knowledge_base noFail [] [goodItem] ∧
    ∀ item ∈ ([goodItem] : List Item), ∀ i, item.id = some i →
      ((build_knowledge_base noFail
          (build_knowledge_base noFail [] [goodItem]).2 [goodItem]).2.filter
        (fun e => e.id == i)).length = 1) :=
  ⟨by decide, by decide,
    c7_rebuild_twice_one_doc_per_id [goodItem] (by decide) (by decide)⟩

/-- C8: the ingestion loop partitions the derived entries into
consecutive batches of at most 500 (each non-empty), in original record
order; upserting them sequentially reproduces the full entry sequence:
the concatenation of the batches is exactly the entry list and the final
collection equals it. -/
theorem c8_batches_partition_in_order (data : List Item)
    (es : List Entry) (prior : List Entry)
    (h : processItems data = .ok es) :
    (∀ c ∈ chunks 500 es, c.length ≤ 500 ∧ c ≠ []) ∧
    (chunks 500 es).flatten = es ∧
    build_knowledge_base noFail prior data = (none, es) := by
  refine ⟨fun c hc => chunks_mem es c hc, chunks_join es, ?_⟩
  unfold build_knowledge_base
  rw [h]
  show addBatches noFail (chunks 500 es) 0 [] = (none, es)
  rw [addBatches_noFail, chunks_join]
  simp

/-- C8 witness: the one-record corpus `[goodItem]` yields one batch
whose concatenation is the entry list, and the run stores exactly it. -/
theorem c8_witness :
    processItems [goodItem]
      = .ok [⟨"2", "Question: Q Context: M", ⟨"General", "General", ""⟩⟩] ∧
    ((∀ c ∈ chunks 500
        [⟨"2", "Question: Q Context: M", ⟨"General", "General", ""⟩⟩],
        c.length ≤ 500 ∧ c ≠ []) ∧
      (chunks 500
        [⟨"2", "Question: Q Context: M", ⟨"General", "General", ""⟩⟩]).flatten
        = [⟨"2", "Question: Q Context: M", ⟨"General", "General", ""⟩⟩] ∧
      build_knowledge_base noFail [] [goodItem]
        = (none, [⟨"2", "Question: Q Context: M",
            ⟨"General", "General", ""⟩⟩])) :=
  ⟨rfl,
    c8_batches_partition_in_order [goodItem]
      [⟨"2", "Question: Q Context: M", ⟨"General", "General", ""⟩⟩] [] rfl⟩

/-- C9: for a fixed index state and embedding model (together the fixed
ranked-result function `knn`) and a fixed query string, any two calls of
the query pipeline return the same response — the embed-then-rank
computation is deterministic, with no random or stateful step. -/
theorem c9_query_pipeline_deterministic
    (knn : String → List (String × Metadata)) (question : String)
    (r₁ r₂ : Except Nat ContextResponse)
    (h₁ : r₁ = query_pipeline knn question)
    (h₂ : r₂ = query_pipeline knn question) :
    r₁ = r₂ :=
  h₁.trans h₂.symm

/-- C9 witness: two calls on the empty index with the same question
agree. -/
theorem c9_witness :
    query_pipeline (fun _ => []) "What is mitosis?"
      = query_pipeline (fun _ => []) "What is mitosis?" :=
  c9_query_pipeline_deterministic (fun _ => []) "What is mitosis?" _ _
    rfl rfl

/-- C10 counterexample: on the corpus `[abcItem, xyzItem]` the topic
`"a.c"` matches no record's topic under the claim's case-insensitive
substring reading, so the claim predicts a fallback returning
`min 5 2 = 2` records; but `str.contains` interprets the topic as a
regular expression (pandas defaults to `regex=True`), `"a.c"`
regex-matches `"abc"`, and the code returns that single filtered record
— no fallback. Moreover the topic `"("`, also substring-matching
nothing, makes `str.contains` raise `re.error` instead of returning a
quiz at all. -/
theorem c10_counterexample_regex_not_substring :
    (∀ r ∈ [abcItem, xyzItem], claimTopicSubstr "a.c" r = false) ∧
    generate_quiz dotCompile takeSample [abcItem, xyzItem] "a.c" "Medium" 5
      = .ok [abcItem] ∧
    min 5 ([abcItem, xyzItem] : List Item).length = 2 ∧
    (∀ r ∈ [abcItem, xyzItem], claimTopicSubstr "(" r = false) ∧
    generate_quiz dotCompile takeSample [abcItem, xyzItem] "(" "Medium" 5
      = .error "re.error" :=
  ⟨by decide, rfl, rfl, by decide, rfl⟩

/-- C10 amended: the topic is interpreted as a case-insensitive regular
expression (`str.contains` with `regex=True`), not a literal substring.
For a non-empty loaded corpus and a topic whose pattern compiles and
regex-matches no record's topic, `generate_quiz` falls back to sampling
the entire corpus and returns exactly `min num_questions (corpus size)`
records, non-empty for `num_questions > 0` (the caller always passes
the default 5); an invalid regex topic raises `re.error` on a non-empty
corpus instead of producing a quiz; the empty loaded corpus yields the
empty quiz before the pattern is ever consulted. -/
theorem c10_amended_regex_no_match_falls_back
    (compileRe : String → Option (String → Bool))
    (sample : List Item → Nat → List Item)
    (hsample : ∀ l n, n ≤ l.length → (sample l n).length = n)
    (df : List Item) (topic difficulty : String) (num_questions : Nat)
    (matcher : String → Bool)
    (hre : compileRe topic = some matcher)
    (hne : df ≠ [])
    (hnm : ∀ r ∈ df, rowContains matcher r = false)
    (hnum : 0 < num_questions) :
    generate_quiz compileRe sample [] topic difficulty num_questions
      = .ok [] ∧
    (∀ bad, compileRe bad = none →
      generate_quiz compileRe sample df bad difficulty num_questions
        = .error "re.error") ∧
    ∃ qs, generate_quiz compileRe sample df topic difficulty num_questions
        = .ok qs ∧ qs.length = min num_questions df.length ∧ qs ≠ [] := by
  have hne' : ¬df.isEmpty = true := by simp [List.isEmpty_iff, hne]
  have hfil : df.filter (rowContains matcher) = [] := by
    rw [List.filter_eq_nil_iff]
    intro a ha
    simp [hnm a ha]
  refine ⟨rfl, ?_, ?_⟩
  · intro bad hbad
    simp [generate_quiz, hne', hbad]
  · refine ⟨sample df (min num_questions df.length), ?_, ?_, ?_⟩
    · simp [generate_quiz, hne', hre, hfil]
    · exact hsample df _ (Nat.min_le_right _ _)
    · intro hempty
      have h0 := hsample df (min num_questions df.length)
        (Nat.min_le_right _ _)
      rw [hempty, List.length_nil] at h0
      have hpos : 0 < min num_questions df.length :=
        lt_min hnum (List.length_pos.mpr hne)
      omega

/-- C10 amended, witness: the corpus `[goodItem]` has no `topic` field,
so the compiled pattern "physics" matches nothing; with the default 5
questions the quiz is the 1-record fallback sample, not empty, and an
invalid pattern yields `re.error`. -/
theorem c10_amended_witness :
    dotCompile "physics"
      = some (fun s => dotSearch (lowerChars "physics".data) (lowerChars s.data)) ∧
    (∀ r ∈ ([goodItem] : List Item),
      rowContains (fun s => dotSearch (lowerChars "physics".data) (lowerChars s.data)) r
        = false) ∧
    (generate_quiz dotCompile takeSample [] "physics" "Medium" 5
        = .ok [] ∧
      (∀ bad, dotCompile bad = none →
        generate_quiz dotCompile takeSample [goodItem] bad "Medium" 5
          = .error "re.error") ∧
      ∃ qs, generate_quiz dotCompile takeSample [goodItem] "physics" "Medium" 5
          = .ok qs ∧ qs.length = min 5 ([goodItem] : List Item).length ∧
          qs ≠ []) :=
  ⟨rfl, by decide,
    c10_amended_regex_no_match_falls_back dotCompile takeSample
      (fun l n h => by
        simp [takeSample, List.length_take, Nat.min_eq_left h])
      [goodItem] "physics" "Medium" 5
      (fun s => dotSearch (lowerChars "physics".data) (lowerChars s.data))
      rfl (by decide) (by decide) (by decide)⟩

end ScholarLens
